import Mathlib

/-!
# Verification of the attendance-submission pipeline (`src/main.py`)

Shallow embedding of the `submit_attendance` endpoint of the attendance
backend.  Python floats are modelled as rationals for the control-flow of
the pipeline; the float-specific operations the control flow merely *uses*
(string-to-float parsing as done by `float(...)`, float formatting as done
by f-strings, and the trigonometric haversine distance) are abstract
parameters gathered in `FloatModel`, because the pipeline's branching never
depends on their concrete bit-level semantics, only on the values they
return.  The haversine *formula* itself is embedded separately over `ℝ`
(`dist_m_code`), where exact real trigonometry is the faithful reading of
the mathematical formula in the source.

External effects (the HTTP POST to the Apps Script forwarder and the call
to the persistence store) are modelled by passing their outcome into the
pipeline as explicit data (`ForwardOutcome`, `PersistOutcome`): the theorems
quantify over every possible outcome of the two sinks.
-/

namespace Attendance

/-- Abstract model of the Python float operations used by `main.py`:
`pyFloat s` is the result of `float(s)` (`none` models a `ValueError`),
`strOfFloat` is `str`/f-string default formatting, `fmt1`/`fmt0` are the
`{:.1f}`/`{:.0f}` format specs, and `haversine plat plon olat olng` is the
float evaluation of the haversine distance in meters computed at
`src/main.py` lines 78-84 (its exact-real counterpart is `dist_m_code`
below). -/
structure FloatModel where
  pyFloat : String → Option ℚ
  strOfFloat : ℚ → String
  fmt1 : ℚ → String
  fmt0 : ℚ → String
  haversine : ℚ → ℚ → ℚ → ℚ → ℚ

/-- The request body (`AttendanceIn` in `src/main.py`).  The boundary
decoder enforces `accuracy_m ≥ 0`; the core never relies on it. -/
structure AttendanceIn where
  name : String
  email : String
  latitude : ℚ
  longitude : ℚ
  accuracy_m : ℚ
  photo_base64 : Option String
deriving DecidableEq

/-- The process environment as read by `submit_attendance` via `os.getenv`:
`none` is an unset variable. -/
structure Env where
  MAX_ALLOWED_ACCURACY_M : Option String := none
  OFFICE_LAT : Option String := none
  OFFICE_LNG : Option String := none
  OFFICE_RADIUS_M : Option String := none
  APPS_SCRIPT_URL : Option String := none
  SHEETS_DASHBOARD_URL : Option String := none
deriving DecidableEq

/-- Python truthiness of an `os.getenv` result: `None` and the empty
string are falsy, every other string is truthy. -/
def getTruthy : Option String → Option String
  | none => none
  | some s => if s = "" then none else some s

/-- `float(os.getenv(X)) if os.getenv(X) else None` for one geofence
variable: unset or empty gives `none`; a truthy string is parsed, and a
parse failure is the `ValueError` the surrounding `try` catches
(`src/main.py` lines 73-75).  The error carries the offending string. -/
def envFloat (fm : FloatModel) (v : Option String) : Except String (Option ℚ) :=
  match getTruthy v with
  | none => .ok none
  | some s =>
    match fm.pyFloat s with
    | some q => .ok (some q)
    | none => .error s

/-- The record persisted and forwarded (`schemas.AttendanceRecord`),
as constructed at `src/main.py` lines 93-104. -/
structure AttendanceRecord where
  name : String
  email : String
  date : String
  time : String
  latitude : ℚ
  longitude : ℚ
  accuracy_m : ℚ
  photo_url : Option String
  geofence_ok : Option Bool
  raw_photo_base64 : Option String
deriving DecidableEq

/-- The server-clock strings captured once per request
(`now.strftime(...)`, `src/main.py` lines 66-68 and 115). -/
structure Clock where
  date_str : String
  time_str : String
  month_tab : String
deriving DecidableEq

/-- Rejection message of the accuracy gate (`src/main.py` line 63). -/
def accuracyMsg (fm : FloatModel) (max_accuracy : ℚ) : String :=
  "Location accuracy too low (> " ++ fm.strOfFloat max_accuracy ++ " m)"

/-- Rejection message of the geofence gate (`src/main.py` line 87). -/
def outsideMsg (fm : FloatModel) (dist_m office_radius : ℚ) : String :=
  "Outside geofence (distance " ++ fm.fmt1 dist_m ++ " m > " ++ fm.fmt0 office_radius ++ " m)"

/-- The geofence block, `src/main.py` lines 71-90: the `try` body parses the
three office variables (a `ValueError` from any of them is caught and leaves
`geofence_ok = None`), and only when all three are present computes the
haversine distance, setting `geofence_ok` and raising `HTTPException(400)`
when outside.  The `HTTPException` is *not* a `ValueError`, so it escapes
the `except` clause: it is the `Except.error` case here. -/
def geofenceCheck (fm : FloatModel) (env : Env) (lat lon : ℚ) :
    Except (Nat × String) (Option Bool) :=
  match envFloat fm env.OFFICE_LAT with
  | .error _ => .ok none
  | .ok office_lat =>
    match envFloat fm env.OFFICE_LNG with
    | .error _ => .ok none
    | .ok office_lng =>
      match envFloat fm env.OFFICE_RADIUS_M with
      | .error _ => .ok none
      | .ok office_radius =>
        match office_lat, office_lng, office_radius with
        | some olat, some olng, some orad =>
          let dist_m := fm.haversine lat lon olat olng
          if dist_m ≤ orad then .ok (some true)
          else .error (400, outsideMsg fm dist_m orad)
        | _, _, _ => .ok none

/-- Outcome of `requests.post(apps_script_url, ...)`: either a response
object or a raised transport/timeout exception (caught at line 138). -/
structure HttpResp where
  status_code : Nat
  text : String
  /-- Result of `resp.json()`: `none` models a body that fails to parse
  (the call raises, swallowed at lines 131-135); otherwise the values of
  the two photo-URL fields the code reads, `data.get("photoUrl")` and
  `data.get("photo_url")`. -/
  json : Option (Option String × Option String)
deriving DecidableEq

inductive ForwardOutcome where
  | resp (r : HttpResp)
  | exn (msg : String)
deriving DecidableEq

/-- Python `a or b` on optional strings: `None` and `""` are falsy. -/
def pyOr (a b : Option String) : Option String :=
  match a with
  | some s => if s = "" then b else some s
  | none => b

/-- The forwarding block, `src/main.py` lines 107-139, returning
`(photo_url_from_apps, forwarded_ok, apps_script_error)`.  Skipped entirely
when `APPS_SCRIPT_URL` is unset or empty (`if apps_script_url:`); a 200
response sets `forwarded_ok` and then best-effort-parses the body (a parse
failure is passed over, leaving only the photo URL uncaptured); any other
status records the status code and the first 200 characters of the body;
a raised exception records its string form. -/
def forwardToAppsScript (env : Env) (net : ForwardOutcome) :
    Option String × Bool × Option String :=
  match getTruthy env.APPS_SCRIPT_URL with
  | none => (none, false, none)
  | some _ =>
    match net with
    | .exn e => (none, false, some e)
    | .resp r =>
      if r.status_code = 200 then
        match r.json with
        | none => (none, true, none)
        | some (photoUrl, photo_url) => (pyOr photoUrl photo_url, true, none)
      else
        (none, false,
          some ("Apps Script HTTP " ++ toString r.status_code ++ ": " ++ r.text.take 200))

/-- Outcome of `create_document("attendancerecord", record)`: an inserted
identifier, or a raised exception (caught at `src/main.py` line 144). -/
inductive PersistOutcome where
  | inserted (ident : String)
  | exn (msg : String)
deriving DecidableEq

/-- The persistence block, lines 142-145: any store failure is swallowed
and leaves `inserted_id = None`. -/
def persistRecord : PersistOutcome → Option String
  | .inserted ident => some ident
  | .exn _ => none

/-- `data` object of the success response (`src/main.py` lines 151-162). -/
structure ResponseData where
  id : Option String
  date : String
  time : String
  latitude : ℚ
  longitude : ℚ
  accuracy_m : ℚ
  geofence_ok : Option Bool
  photo_url : Option String
  apps_script_forwarded : Bool
  apps_script_error : Option String
deriving DecidableEq

/-- The success response (`src/main.py` lines 148-164). -/
structure AttendanceResponse where
  success : Bool
  message : String
  data : ResponseData
  dashboard_url : Option String
deriving DecidableEq

/-- Result of one call to `submit_attendance` as seen by the HTTP layer:
an unhandled `ValueError` (raised by `float` on the recorded string),
an `HTTPException(status, detail)`, or the JSON success payload. -/
inductive PyResult where
  | valueError (arg : String)
  | httpError (status : Nat) (detail : String)
  | ok (r : AttendanceResponse)
deriving DecidableEq

/-- Record construction, `src/main.py` lines 93-104. -/
def buildRecord (payload : AttendanceIn) (clock : Clock)
    (geofence_ok : Option Bool) : AttendanceRecord :=
  { name := payload.name
    email := payload.email
    date := clock.date_str
    time := clock.time_str
    latitude := payload.latitude
    longitude := payload.longitude
    accuracy_m := payload.accuracy_m
    photo_url := none
    geofence_ok := geofence_ok
    raw_photo_base64 := payload.photo_base64 }

/-- Response assembly, `src/main.py` lines 148-164 (`"... or None"` on the
dashboard URL is the truthiness coercion `getTruthy`). -/
def assembleResponse (env : Env) (record : AttendanceRecord)
    (inserted_id : Option String) (photo_url_from_apps : Option String)
    (forwarded_ok : Bool) (apps_script_error : Option String) : AttendanceResponse :=
  { success := true
    message := "Attendance marked successfully!"
    data :=
      { id := inserted_id
        date := record.date
        time := record.time
        latitude := record.latitude
        longitude := record.longitude
        accuracy_m := record.accuracy_m
        geofence_ok := record.geofence_ok
        photo_url := photo_url_from_apps
        apps_script_forwarded := forwarded_ok
        apps_script_error := apps_script_error }
    dashboard_url := getTruthy env.SHEETS_DASHBOARD_URL }

/-- The pipeline from the geofence block onward (`src/main.py` lines
66-164): geofence evaluation, record construction, forwarding, persistence,
response assembly. -/
def afterAccuracyGate (fm : FloatModel) (env : Env) (clock : Clock)
    (net : ForwardOutcome) (store : PersistOutcome) (payload : AttendanceIn) : PyResult :=
  match geofenceCheck fm env payload.latitude payload.longitude with
  | .error (st, msg) => .httpError st msg
  | .ok geofence_ok =>
    let record := buildRecord payload clock geofence_ok
    let fw := forwardToAppsScript env net
    let inserted_id := persistRecord store
    .ok (assembleResponse env record inserted_id fw.1 fw.2.1 fw.2.2)

/-- The whole endpoint body, `src/main.py` lines 59-164.  Line 61 parses
`MAX_ALLOWED_ACCURACY_M` (defaulting the *string* `"50"` only when the
variable is unset); a parse failure there is an unhandled `ValueError`.
Lines 62-63 are the accuracy gate. -/
def submit_attendance (fm : FloatModel) (env : Env) (clock : Clock)
    (net : ForwardOutcome) (store : PersistOutcome) (payload : AttendanceIn) : PyResult :=
  match fm.pyFloat (env.MAX_ALLOWED_ACCURACY_M.getD "50") with
  | none => .valueError (env.MAX_ALLOWED_ACCURACY_M.getD "50")
  | some max_accuracy =>
    if payload.accuracy_m > max_accuracy then
      .httpError 400 (accuracyMsg fm max_accuracy)
    else
      afterAccuracyGate fm env clock net store payload

/-! ## The haversine formula over the reals (`src/main.py` lines 78-84) -/

noncomputable section

/-- `math.radians`. -/
noncomputable def radians (x : ℝ) : ℝ := x * Real.pi / 180

/-- `math.atan2 y x`: the argument of the complex number `x + y·i`. -/
noncomputable def atan2 (y x : ℝ) : ℝ := Complex.arg ⟨x, y⟩

/-- The distance computed by the code, `src/main.py` lines 78-84, read over
exact reals: `R = 6371000`, `dlat`/`dlon` the radian deltas,
`a = sin(dlat/2)² + cos(office_lat)·cos(payload_lat)·sin(dlon/2)²`,
`c = 2·atan2(√a, √(1−a))`, `dist_m = R·c`. -/
noncomputable def dist_m_code (payload_lat payload_lon office_lat office_lng : ℝ) : ℝ :=
  let R : ℝ := 6371000
  let dlat := radians (payload_lat - office_lat)
  let dlon := radians (payload_lon - office_lng)
  let a := Real.sin (dlat / 2) ^ 2 +
    Real.cos (radians office_lat) * Real.cos (radians payload_lat) * Real.sin (dlon / 2) ^ 2
  let c := 2 * atan2 (Real.sqrt a) (Real.sqrt (1 - a))
  R * c

/-- The haversine formula exactly as the spec words it, for comparison with
`dist_m_code`: Earth radius 6,371,000 m, deltas converted to radians,
`a = sin²(Δlat/2) + cos(lat1)·cos(lat2)·sin²(Δlon/2)`,
`distance = 2·R·atan2(√a, √(1−a))`. -/
noncomputable def haversine_spec (lat1 lon1 lat2 lon2 : ℝ) : ℝ :=
  let R : ℝ := 6371000
  let a := Real.sin (radians (lat2 - lat1) / 2) ^ 2 +
    Real.cos (radians lat1) * Real.cos (radians lat2) * Real.sin (radians (lon2 - lon1) / 2) ^ 2
  2 * R * atan2 (Real.sqrt a) (Real.sqrt (1 - a))

end

/-! ## Concrete sample instantiations (used to exercise the theorems) -/

/-- A small concrete `float(...)` table sufficient for the sample
environments below; every other string fails to parse. -/
def pyFloatSample : String → Option ℚ
  | "50" => some 50
  | "0" => some 0
  | "100" => some 100
  | _ => none

def fmSample : FloatModel where
  pyFloat := pyFloatSample
  strOfFloat := fun q => if q = 50 then "50.0" else "?"
  fmt1 := fun q => if q = 1113 then "1113.0" else "?"
  fmt0 := fun q => if q = 100 then "100" else "?"
  haversine := fun lat lon _ _ => if lat = 0 ∧ lon = 0 then 0 else 1113

def envEmpty : Env := {}

def envGeo : Env :=
  { OFFICE_LAT := some "0", OFFICE_LNG := some "0", OFFICE_RADIUS_M := some "100" }

def envUrl : Env := { APPS_SCRIPT_URL := some "https://script.example/exec" }

def envBadGeo : Env :=
  { OFFICE_LAT := some "not-a-number", OFFICE_LNG := some "0",
    OFFICE_RADIUS_M := some "100" }

def envBadMax : Env := { MAX_ALLOWED_ACCURACY_M := some "not-a-number" }

def clockSample : Clock :=
  { date_str := "2025-11-07", time_str := "09:00:00", month_tab := "Nov-2025" }

def payloadAt (lat lon acc : ℚ) : AttendanceIn :=
  { name := "Ada", email := "ada@example.com", latitude := lat, longitude := lon,
    accuracy_m := acc, photo_base64 := none }

/-- Holds of a geofence variable that is unset, empty, or set to a string
that `float(...)` rejects — exactly the cases in which that variable does
not contribute a number to the geofence check. -/
def geoVarMissing (fm : FloatModel) (v : Option String) : Bool :=
  match envFloat fm v with
  | .ok (some _) => false
  | _ => true

/-! ## Helper lemmas -/

/-- Passing the accuracy gate reduces the endpoint to the rest of its body. -/
theorem aux_gate_pass (fm : FloatModel) (env : Env) (clock : Clock)
    (net : ForwardOutcome) (store : PersistOutcome) (payload : AttendanceIn)
    (m : ℚ) (hm : fm.pyFloat (env.MAX_ALLOWED_ACCURACY_M.getD "50") = some m)
    (hacc : payload.accuracy_m ≤ m) :
    submit_attendance fm env clock net store payload =
      afterAccuracyGate fm env clock net store payload := by
  unfold submit_attendance
  simp only [hm]
  rw [if_neg (not_lt.mpr hacc)]

/-- A non-rejecting geofence check reduces the rest of the body to the
assembled response. -/
theorem aux_after (fm : FloatModel) (env : Env) (clock : Clock)
    (net : ForwardOutcome) (store : PersistOutcome) (payload : AttendanceIn)
    (g : Option Bool)
    (hgeo : geofenceCheck fm env payload.latitude payload.longitude = .ok g) :
    afterAccuracyGate fm env clock net store payload =
      .ok (assembleResponse env (buildRecord payload clock g)
        (persistRecord store) (forwardToAppsScript env net).1
        (forwardToAppsScript env net).2.1 (forwardToAppsScript env net).2.2) := by
  unfold afterAccuracyGate
  simp only [hgeo]

/-- A geofence check that does not raise never returns the verdict
`some false`: the `outside` case raises instead of returning. -/
theorem aux_geofenceCheck_not_false (fm : FloatModel) (env : Env) (lat lon : ℚ)
    (g : Option Bool) (h : geofenceCheck fm env lat lon = .ok g) :
    g ≠ some false := by
  unfold geofenceCheck at h
  dsimp only at h
  repeat' split at h
  all_goals cases h
  all_goals simp

/-- `resp.text[:200]` has at most 200 characters. -/
theorem aux_take_length_le (s : String) (n : Nat) : (s.take n).length ≤ n := by
  show (s.take n).data.length ≤ n
  rw [String.data_take]
  simp [List.length_take]

/-! ## Claims -/

/-- **C3.**  For every submitted (latitude, longitude) and configured office
(latitude, longitude), the geofence distance computed by the pipeline
(`src/main.py` lines 78-84, embedded as `dist_m_code`) equals the haversine
formula with Earth radius 6,371,000 m:
`a = sin²(Δlat/2) + cos(lat1)·cos(lat2)·sin²(Δlon/2)`,
`distance = 2·R·atan2(√a, √(1−a))`, deltas converted to radians
(embedded from the spec text as `haversine_spec`). -/
theorem dist_m_code_eq_haversine_spec (plat plon olat olng : ℝ) :
    dist_m_code plat plon olat olng = haversine_spec olat olng plat plon := by
  simp only [dist_m_code, haversine_spec]
  ring

/-- **C1.**  With the configured maximum parsing to `m`, a submission with
`accuracy_m > m` is rejected with HTTP 400 and detail
`"Location accuracy too low (> {m} m)"`, and the result does not depend on
the forwarder or the store (no sink is consulted); a submission with
`accuracy_m ≤ m` is not rejected by this gate: the pipeline proceeds to the
rest of the endpoint body. -/
theorem accuracy_gate (fm : FloatModel) (env : Env) (clock : Clock)
    (net : ForwardOutcome) (store : PersistOutcome) (payload : AttendanceIn)
    (m : ℚ) (hm : fm.pyFloat (env.MAX_ALLOWED_ACCURACY_M.getD "50") = some m) :
    (payload.accuracy_m > m →
      submit_attendance fm env clock net store payload =
        .httpError 400 (accuracyMsg fm m) ∧
      ∀ net2 store2, submit_attendance fm env clock net2 store2 payload =
        .httpError 400 (accuracyMsg fm m)) ∧
    (payload.accuracy_m ≤ m →
      submit_attendance fm env clock net store payload =
        afterAccuracyGate fm env clock net store payload) := by
  constructor
  · intro h
    constructor
    · unfold submit_attendance
      simp only [hm]
      rw [if_pos h]
    · intro net2 store2
      unfold submit_attendance
      simp only [hm]
      rw [if_pos h]
  · intro h
    unfold submit_attendance
    simp only [hm]
    rw [if_neg (not_lt.mpr h)]

theorem accuracy_gate_witness :
    fmSample.pyFloat (envEmpty.MAX_ALLOWED_ACCURACY_M.getD "50") = some 50 ∧
    (60 : ℚ) > 50 ∧
    submit_attendance fmSample envEmpty clockSample (.exn "down") (.exn "db down")
      (payloadAt 0 0 60) = .httpError 400 (accuracyMsg fmSample 50) :=
  ⟨by decide, by decide,
    ((accuracy_gate fmSample envEmpty clockSample (.exn "down") (.exn "db down")
      (payloadAt 0 0 60) 50 (by decide)).1 (by decide)).1⟩

/-- **C10.**  If `MAX_ALLOWED_ACCURACY_M` is set but does not parse as a
number, every call raises an unhandled `ValueError` — the same result for
every payload, forwarder outcome and store outcome, so nothing downstream
(validation, geofence, sinks) runs; the default 50 is not applied and the
caller gets no structured rejection. -/
theorem max_accuracy_parse_failure (fm : FloatModel) (env : Env)
    (s : String) (hset : env.MAX_ALLOWED_ACCURACY_M = some s)
    (hparse : fm.pyFloat s = none) :
    ∀ clock net store payload,
      submit_attendance fm env clock net store payload = .valueError s := by
  intro clock net store payload
  unfold submit_attendance
  rw [hset]
  simp [hparse]

theorem max_accuracy_parse_failure_witness :
    envBadMax.MAX_ALLOWED_ACCURACY_M = some "not-a-number" ∧
    fmSample.pyFloat "not-a-number" = none ∧
    submit_attendance fmSample envBadMax clockSample (.exn "down") (.inserted "id1")
      (payloadAt 0 0 10) = .valueError "not-a-number" :=
  ⟨by decide, by decide,
    max_accuracy_parse_failure fmSample envBadMax "not-a-number" (by decide) (by decide)
      clockSample (.exn "down") (.inserted "id1") (payloadAt 0 0 10)⟩

/-- **C2.**  With a fully configured (all-numeric) geofence and a submission
past the accuracy gate: if the computed great-circle distance exceeds the
radius, the endpoint rejects with HTTP 400 and detail
`"Outside geofence (distance {d} m > {radius} m)"`, independently of the
forwarder and the store (no sink is consulted); if the distance is at most
the radius, the verdict is `inside` (`some true`) and the pipeline
continues to the assembled success response. -/
theorem geofence_gate (fm : FloatModel) (env : Env) (clock : Clock)
    (net : ForwardOutcome) (store : PersistOutcome) (payload : AttendanceIn)
    (m : ℚ) (hm : fm.pyFloat (env.MAX_ALLOWED_ACCURACY_M.getD "50") = some m)
    (hacc : payload.accuracy_m ≤ m)
    (olat olng orad : ℚ)
    (hlat : envFloat fm env.OFFICE_LAT = .ok (some olat))
    (hlng : envFloat fm env.OFFICE_LNG = .ok (some olng))
    (hrad : envFloat fm env.OFFICE_RADIUS_M = .ok (some orad)) :
    (fm.haversine payload.latitude payload.longitude olat olng > orad →
      submit_attendance fm env clock net store payload =
        .httpError 400
          (outsideMsg fm (fm.haversine payload.latitude payload.longitude olat olng) orad) ∧
      ∀ net2 store2, submit_attendance fm env clock net2 store2 payload =
        .httpError 400
          (outsideMsg fm (fm.haversine payload.latitude payload.longitude olat olng) orad)) ∧
    (fm.haversine payload.latitude payload.longitude olat olng ≤ orad →
      geofenceCheck fm env payload.latitude payload.longitude = .ok (some true) ∧
      submit_attendance fm env clock net store payload =
        .ok (assembleResponse env (buildRecord payload clock (some true))
          (persistRecord store) (forwardToAppsScript env net).1
          (forwardToAppsScript env net).2.1 (forwardToAppsScript env net).2.2)) := by
  constructor
  · intro h
    have hout : geofenceCheck fm env payload.latitude payload.longitude =
        .error (400,
          outsideMsg fm (fm.haversine payload.latitude payload.longitude olat olng) orad) := by
      unfold geofenceCheck
      simp only [hlat, hlng, hrad]
      rw [if_neg (not_le.mpr h)]
    constructor
    · rw [aux_gate_pass fm env clock net store payload m hm hacc]
      unfold afterAccuracyGate
      simp only [hout]
    · intro net2 store2
      rw [aux_gate_pass fm env clock net2 store2 payload m hm hacc]
      unfold afterAccuracyGate
      simp only [hout]
  · intro h
    have hin : geofenceCheck fm env payload.latitude payload.longitude = .ok (some true) := by
      unfold geofenceCheck
      simp only [hlat, hlng, hrad]
      rw [if_pos h]
    exact ⟨hin, by
      rw [aux_gate_pass fm env clock net store payload m hm hacc,
        aux_after fm env clock net store payload (some true) hin]⟩

theorem geofence_gate_witness :
    fmSample.haversine 0 1 0 0 > 100 ∧
    submit_attendance fmSample envGeo clockSample (.exn "down") (.inserted "id1")
      (payloadAt 0 1 10) =
      .httpError 400 (outsideMsg fmSample (fmSample.haversine 0 1 0 0) 100) :=
  ⟨by decide,
    ((geofence_gate fmSample envGeo clockSample (.exn "down") (.inserted "id1")
      (payloadAt 0 1 10) 50 (by decide) (by decide) 0 0 100
      (by rfl) (by rfl) (by rfl)).1 (by decide)).1⟩

/-- **C4.**  If any one of `OFFICE_LAT`, `OFFICE_LNG`, `OFFICE_RADIUS_M` is
unset (or empty) or fails to parse as a number, the geofence check returns
the `unconfigured` verdict (`none`) for every submitted coordinate pair and
never raises; and once past the accuracy gate the submission is not
rejected on geofence grounds: the success response carries
`geofence_ok = null`. -/
theorem geofence_unconfigured (fm : FloatModel) (env : Env)
    (hbad : geoVarMissing fm env.OFFICE_LAT = true ∨
            geoVarMissing fm env.OFFICE_LNG = true ∨
            geoVarMissing fm env.OFFICE_RADIUS_M = true) :
    (∀ lat lon, geofenceCheck fm env lat lon = .ok none) ∧
    ∀ clock net store payload m,
      fm.pyFloat (env.MAX_ALLOWED_ACCURACY_M.getD "50") = some m →
      payload.accuracy_m ≤ m →
      submit_attendance fm env clock net store payload =
        .ok (assembleResponse env (buildRecord payload clock none)
          (persistRecord store) (forwardToAppsScript env net).1
          (forwardToAppsScript env net).2.1 (forwardToAppsScript env net).2.2) := by
  have hcheck : ∀ lat lon, geofenceCheck fm env lat lon = .ok none := by
    intro lat lon
    unfold geoVarMissing at hbad
    unfold geofenceCheck
    rcases h1 : envFloat fm env.OFFICE_LAT with s1 | o1 <;> simp only [h1] at hbad ⊢
    rcases h2 : envFloat fm env.OFFICE_LNG with s2 | o2 <;> simp only [h2] at hbad ⊢
    rcases h3 : envFloat fm env.OFFICE_RADIUS_M with s3 | o3 <;> simp only [h3] at hbad ⊢
    rcases o1 with _ | q1 <;> rcases o2 with _ | q2 <;> rcases o3 with _ | q3 <;> simp_all
  refine ⟨hcheck, ?_⟩
  intro clock net store payload m hm hacc
  rw [aux_gate_pass fm env clock net store payload m hm hacc,
    aux_after fm env clock net store payload none
      (hcheck payload.latitude payload.longitude)]

theorem geofence_unconfigured_witness :
    geoVarMissing fmSample envBadGeo.OFFICE_LAT = true ∧
    geofenceCheck fmSample envBadGeo 5 5 = .ok none ∧
    submit_attendance fmSample envBadGeo clockSample (.exn "down") (.inserted "id2")
      (payloadAt 5 5 10) =
      .ok (assembleResponse envBadGeo (buildRecord (payloadAt 5 5 10) clockSample none)
        (persistRecord (.inserted "id2"))
        (forwardToAppsScript envBadGeo (.exn "down")).1
        (forwardToAppsScript envBadGeo (.exn "down")).2.1
        (forwardToAppsScript envBadGeo (.exn "down")).2.2) :=
  ⟨by decide,
    (geofence_unconfigured fmSample envBadGeo (Or.inl (by decide))).1 5 5,
    (geofence_unconfigured fmSample envBadGeo (Or.inl (by decide))).2
      clockSample (.exn "down") (.inserted "id2") (payloadAt 5 5 10) 50
      (by decide) (by decide)⟩

/-- **C5.**  Past validation and geofencing, a forwarder failure (raised
transport error / timeout, or a non-200 status) does not abort the
pipeline: the response exists with `success = true`,
`apps_script_forwarded = false` and a non-null error detail, and its `id`
still reflects the persistence outcome; for a non-200 status the error
detail is the status code with the body excerpt truncated to at most 200
characters. -/
theorem forwarder_failure_isolated (fm : FloatModel) (env : Env) (clock : Clock)
    (net : ForwardOutcome) (store : PersistOutcome) (payload : AttendanceIn)
    (m : ℚ) (hm : fm.pyFloat (env.MAX_ALLOWED_ACCURACY_M.getD "50") = some m)
    (hacc : payload.accuracy_m ≤ m)
    (g : Option Bool)
    (hgeo : geofenceCheck fm env payload.latitude payload.longitude = .ok g)
    (u : String) (hurl : getTruthy env.APPS_SCRIPT_URL = some u)
    (hfail : (∃ e, net = .exn e) ∨ ∃ r, net = .resp r ∧ r.status_code ≠ 200) :
    ∃ resp, submit_attendance fm env clock net store payload = .ok resp ∧
      resp.success = true ∧
      resp.data.apps_script_forwarded = false ∧
      resp.data.apps_script_error ≠ none ∧
      resp.data.id = persistRecord store ∧
      ∀ r, net = .resp r →
        resp.data.apps_script_error =
          some ("Apps Script HTTP " ++ toString r.status_code ++ ": " ++ r.text.take 200) ∧
        (r.text.take 200).length ≤ 200 := by
  rw [aux_gate_pass fm env clock net store payload m hm hacc,
    aux_after fm env clock net store payload g hgeo]
  rcases hfail with ⟨e, rfl⟩ | ⟨r, rfl, hst⟩
  · have hfw : forwardToAppsScript env (.exn e) = (none, false, some e) := by
      unfold forwardToAppsScript
      rw [hurl]
    refine ⟨_, rfl, rfl, ?_, ?_, rfl, ?_⟩
    · rw [hfw]
      rfl
    · rw [hfw]
      simp [assembleResponse]
    · intro r hr
      cases hr
  · have hfw : forwardToAppsScript env (.resp r) =
        (none, false,
          some ("Apps Script HTTP " ++ toString r.status_code ++ ": " ++ r.text.take 200)) := by
      unfold forwardToAppsScript
      rw [hurl]
      simp only [if_neg hst]
    refine ⟨_, rfl, rfl, ?_, ?_, rfl, ?_⟩
    · rw [hfw]
      rfl
    · rw [hfw]
      simp [assembleResponse]
    · intro r2 hr2
      cases hr2
      rw [hfw]
      exact ⟨rfl, aux_take_length_le r.text 200⟩

theorem forwarder_failure_isolated_witness :
    ∃ resp, submit_attendance fmSample envUrl clockSample
        (.resp ⟨500, "Internal Server Error", none⟩)
        (.inserted "id3") (payloadAt 0 0 10) = .ok resp ∧
      resp.success = true ∧
      resp.data.apps_script_forwarded = false ∧
      resp.data.apps_script_error ≠ none ∧
      resp.data.id = persistRecord (.inserted "id3") ∧
      ∀ r, ForwardOutcome.resp ⟨500, "Internal Server Error", none⟩ = .resp r →
        resp.data.apps_script_error =
          some ("Apps Script HTTP " ++ toString r.status_code ++ ": " ++ r.text.take 200) ∧
        (r.text.take 200).length ≤ 200 :=
  forwarder_failure_isolated fmSample envUrl clockSample
    (.resp ⟨500, "Internal Server Error", none⟩)
    (.inserted "id3") (payloadAt 0 0 10) 50 (by decide) (by decide)
    none (by rfl) "https://script.example/exec" (by rfl)
    (Or.inr ⟨_, rfl, by decide⟩)

/-- **C6.**  Past validation and geofencing, a persistence-store failure
only yields `id = null`: the response still has `success = true`, its
forwarder-error field is exactly the forwarder's own outcome (nothing about
the store failure is surfaced), no exception propagates, and the
`apps_script_forwarded`, `apps_script_error` and `geofence_ok` fields are
the same for every store outcome. -/
theorem persistence_failure_isolated (fm : FloatModel) (env : Env) (clock : Clock)
    (net : ForwardOutcome) (payload : AttendanceIn)
    (m : ℚ) (hm : fm.pyFloat (env.MAX_ALLOWED_ACCURACY_M.getD "50") = some m)
    (hacc : payload.accuracy_m ≤ m)
    (g : Option Bool)
    (hgeo : geofenceCheck fm env payload.latitude payload.longitude = .ok g)
    (emsg : String) :
    ∃ resp, submit_attendance fm env clock net (.exn emsg) payload = .ok resp ∧
      resp.success = true ∧
      resp.data.id = none ∧
      resp.data.apps_script_error = (forwardToAppsScript env net).2.2 ∧
      ∀ store2, ∃ resp2,
        submit_attendance fm env clock net store2 payload = .ok resp2 ∧
        resp2.success = true ∧
        resp2.data.apps_script_forwarded = resp.data.apps_script_forwarded ∧
        resp2.data.apps_script_error = resp.data.apps_script_error ∧
        resp2.data.geofence_ok = resp.data.geofence_ok := by
  rw [aux_gate_pass fm env clock net (.exn emsg) payload m hm hacc,
    aux_after fm env clock net (.exn emsg) payload g hgeo]
  refine ⟨_, rfl, rfl, rfl, rfl, ?_⟩
  intro store2
  rw [aux_gate_pass fm env clock net store2 payload m hm hacc,
    aux_after fm env clock net store2 payload g hgeo]
  exact ⟨_, rfl, rfl, rfl, rfl, rfl⟩

theorem persistence_failure_isolated_witness :
    ∃ resp, submit_attendance fmSample envEmpty clockSample (.exn "network down")
        (.exn "mongo down") (payloadAt 0 0 10) = .ok resp ∧
      resp.success = true ∧
      resp.data.id = none ∧
      resp.data.apps_script_error =
        (forwardToAppsScript envEmpty (.exn "network down")).2.2 ∧
      ∀ store2, ∃ resp2,
        submit_attendance fmSample envEmpty clockSample (.exn "network down") store2
          (payloadAt 0 0 10) = .ok resp2 ∧
        resp2.success = true ∧
        resp2.data.apps_script_forwarded = resp.data.apps_script_forwarded ∧
        resp2.data.apps_script_error = resp.data.apps_script_error ∧
        resp2.data.geofence_ok = resp.data.geofence_ok :=
  persistence_failure_isolated fmSample envEmpty clockSample (.exn "network down")
    (payloadAt 0 0 10) 50 (by decide) (by decide) none (by rfl) "mongo down"

/-- **C8.**  Past validation and geofencing, when `APPS_SCRIPT_URL` is
unset the forwarding step is skipped entirely: for every possible network
outcome the forwarder result is `(no photo URL, forwarded = false, no
error)`, and the response has `apps_script_forwarded = false`,
`apps_script_error = null`, with `id` still reflecting the persistence
outcome. -/
theorem forwarder_unset_skipped (fm : FloatModel) (env : Env) (clock : Clock)
    (store : PersistOutcome) (payload : AttendanceIn)
    (m : ℚ) (hm : fm.pyFloat (env.MAX_ALLOWED_ACCURACY_M.getD "50") = some m)
    (hacc : payload.accuracy_m ≤ m)
    (g : Option Bool)
    (hgeo : geofenceCheck fm env payload.latitude payload.longitude = .ok g)
    (hurl : env.APPS_SCRIPT_URL = none) :
    (∀ net, forwardToAppsScript env net = (none, false, none)) ∧
    ∀ net, ∃ resp, submit_attendance fm env clock net store payload = .ok resp ∧
      resp.success = true ∧
      resp.data.apps_script_forwarded = false ∧
      resp.data.apps_script_error = none ∧
      resp.data.id = persistRecord store := by
  have hskip : ∀ net, forwardToAppsScript env net = (none, false, none) := by
    intro net
    unfold forwardToAppsScript
    rw [hurl]
    rfl
  refine ⟨hskip, ?_⟩
  intro net
  rw [aux_gate_pass fm env clock net store payload m hm hacc,
    aux_after fm env clock net store payload g hgeo]
  refine ⟨_, rfl, rfl, ?_, ?_, rfl⟩
  · rw [hskip net]
    rfl
  · rw [hskip net]
    rfl

theorem forwarder_unset_skipped_witness :
    forwardToAppsScript envEmpty
      (.resp ⟨200, "ok", some (some "https://img.example/1.jpg", none)⟩) =
      (none, false, none) ∧
    ∃ resp, submit_attendance fmSample envEmpty clockSample
        (.resp ⟨200, "ok", some (some "https://img.example/1.jpg", none)⟩)
        (.inserted "id4") (payloadAt 0 0 10) = .ok resp ∧
      resp.success = true ∧
      resp.data.apps_script_forwarded = false ∧
      resp.data.apps_script_error = none ∧
      resp.data.id = persistRecord (.inserted "id4") :=
  have h := forwarder_unset_skipped fmSample envEmpty clockSample (.inserted "id4")
    (payloadAt 0 0 10) 50 (by decide) (by decide) none (by rfl) (by rfl)
  ⟨h.1 _, h.2 _⟩

/-- **C7 (counterexample).**  A forwarder response with HTTP 200 and a body
that fails to parse is *not* recorded as a forwarder failure: at this
concrete input the success payload has `apps_script_forwarded = true` and
`apps_script_error = null`, contradicting the claim that a malformed
response body is recorded like a bad status, transport error or timeout. -/
theorem malformed_body_counterexample :
    submit_attendance fmSample envUrl clockSample
      (.resp ⟨200, "<html>oops", none⟩) (.inserted "abc123") (payloadAt 0 0 10) =
      .ok (assembleResponse envUrl (buildRecord (payloadAt 0 0 10) clockSample none)
        (some "abc123") none true none) ∧
    (assembleResponse envUrl (buildRecord (payloadAt 0 0 10) clockSample none)
        (some "abc123") none true none).data.apps_script_forwarded = true ∧
    (assembleResponse envUrl (buildRecord (payloadAt 0 0 10) clockSample none)
        (some "abc123") none true none).data.apps_script_error = none :=
  ⟨by decide, rfl, rfl⟩

/-- **C7 (amended).**  A malformed (unparseable) response body is only
reachable on an HTTP 200 forwarder response (`resp.json()` is not called
otherwise), and there it is swallowed: the forward still counts as a
success (`apps_script_forwarded = true`, `apps_script_error = null`), only
the photo URL goes uncaptured, and the pipeline continues to persistence
(the response `id` reflects the store outcome). -/
theorem malformed_body_not_failure (fm : FloatModel) (env : Env) (clock : Clock)
    (store : PersistOutcome) (payload : AttendanceIn)
    (m : ℚ) (hm : fm.pyFloat (env.MAX_ALLOWED_ACCURACY_M.getD "50") = some m)
    (hacc : payload.accuracy_m ≤ m)
    (g : Option Bool)
    (hgeo : geofenceCheck fm env payload.latitude payload.longitude = .ok g)
    (u : String) (hurl : getTruthy env.APPS_SCRIPT_URL = some u)
    (r : HttpResp) (h200 : r.status_code = 200) (hbody : r.json = none) :
    forwardToAppsScript env (.resp r) = (none, true, none) ∧
    ∃ resp, submit_attendance fm env clock (.resp r) store payload = .ok resp ∧
      resp.success = true ∧
      resp.data.apps_script_forwarded = true ∧
      resp.data.apps_script_error = none ∧
      resp.data.photo_url = none ∧
      resp.data.id = persistRecord store := by
  have hfw : forwardToAppsScript env (.resp r) = (none, true, none) := by
    unfold forwardToAppsScript
    rw [hurl]
    simp [h200, hbody]
  refine ⟨hfw, ?_⟩
  rw [aux_gate_pass fm env clock (.resp r) store payload m hm hacc,
    aux_after fm env clock (.resp r) store payload g hgeo]
  refine ⟨_, rfl, rfl, ?_, ?_, ?_, rfl⟩
  · rw [hfw]
    rfl
  · rw [hfw]
    rfl
  · rw [hfw]
    rfl

theorem malformed_body_not_failure_witness :
    forwardToAppsScript envUrl (.resp ⟨200, "<garbled>", none⟩) = (none, true, none) ∧
    ∃ resp, submit_attendance fmSample envUrl clockSample (.resp ⟨200, "<garbled>", none⟩)
        (.inserted "id5") (payloadAt 0 0 10) = .ok resp ∧
      resp.success = true ∧
      resp.data.apps_script_forwarded = true ∧
      resp.data.apps_script_error = none ∧
      resp.data.photo_url = none ∧
      resp.data.id = persistRecord (.inserted "id5") :=
  malformed_body_not_failure fmSample envUrl clockSample (.inserted "id5")
    (payloadAt 0 0 10) 50 (by decide) (by decide) none (by rfl)
    "https://script.example/exec" (by rfl) ⟨200, "<garbled>", none⟩ rfl rfl

/-- **C9.**  Every success payload returned by `submit_attendance` has
`geofence_ok` equal to null or true, never false: the `outside` verdict
raises before the response is assembled. -/
theorem geofence_ok_never_false (fm : FloatModel) (env : Env) (clock : Clock)
    (net : ForwardOutcome) (store : PersistOutcome) (payload : AttendanceIn)
    (resp : AttendanceResponse)
    (h : submit_attendance fm env clock net store payload = .ok resp) :
    resp.success = true ∧ resp.data.geofence_ok ≠ some false := by
  unfold submit_attendance at h
  split at h
  · cases h
  · split at h
    · cases h
    · unfold afterAccuracyGate at h
      dsimp only at h
      split at h
      · cases h
      · rename_i g heq
        injection h with h2
        subst h2
        exact ⟨rfl,
          aux_geofenceCheck_not_false fm env payload.latitude payload.longitude g heq⟩

def respC9 : AttendanceResponse :=
  assembleResponse envEmpty (buildRecord (payloadAt 0 0 10) clockSample none)
    none none false none

theorem geofence_ok_never_false_witness :
    respC9.success = true ∧ respC9.data.geofence_ok ≠ some false :=
  geofence_ok_never_false fmSample envEmpty clockSample (.exn "net down") (.exn "db down")
    (payloadAt 0 0 10) respC9 (by decide)

end Attendance
